import Mathlib

/-!
Verification of the label-placement and collision-avoidance core of a vector-map
renderer, against its natural-language specification.

The embedding covers the two source modules of the repository:
`src/symbol/projection.js` (coordinate projection, line-label placement,
orientation/flip logic, hidden-sentinel output) and
`src/symbol/collision_index.js` (collision box placement and commitment into
a pair of spatial grids).

Modelling conventions:
* JavaScript numbers are modelled by exact rationals.  Rational division by
  zero yields 0 in Lean, where JavaScript would produce Infinity or NaN; no
  theorem below depends on such a degenerate input.
* gl-matrix objects (4x4 matrices, column-major) are modelled by an explicit
  sixteen-field structure; transforms follow gl-matrix semantics.
* External collaborators that are not part of this repository
  (the point-geometry library's Euclidean norm, Math.atan2, Math.PI,
  Math.tan applied to the 85-degree constant, the symbol-size evaluators
  and the dynamic-attribute writer) are passed in as explicit parameters,
  so that every definition stays computable and no transcendental constant
  has to be axiomatised.  No theorem depends on their values unless its
  statement quantifies over them.
* The generic 2D spatial grid (grid_index.js) is code of this repository
  that is not under src/; it is modelled from the spec's contract, see the
  definitions marked accordingly.
-/

/-! ## Basic geometry -/

/-- A 2D point with rational coordinates, modelling a point-geometry Point. -/
structure Pt where
  x : ℚ
  y : ℚ
deriving DecidableEq, Repr

/-- Componentwise addition, modelling point-geometry add. -/
def Pt.add (p q : Pt) : Pt := ⟨p.x + q.x, p.y + q.y⟩

/-- Componentwise subtraction, modelling point-geometry sub. -/
def Pt.sub (p q : Pt) : Pt := ⟨p.x - q.x, p.y - q.y⟩

/-- Scalar multiplication, modelling point-geometry mult. -/
def Pt.mult (p : Pt) (k : ℚ) : Pt := ⟨p.x * k, p.y * k⟩

/-- Quarter-turn rotation, modelling point-geometry perp. -/
def Pt.perp (p : Pt) : Pt := ⟨-p.y, p.x⟩

/-- A 3-component vector (projected tile point, elevation vector). -/
structure V3 where
  x : ℚ
  y : ℚ
  z : ℚ
deriving DecidableEq, Repr

/-- A 4-component homogeneous vector. -/
structure V4 where
  x : ℚ
  y : ℚ
  z : ℚ
  w : ℚ
deriving DecidableEq, Repr

/-- A 4x4 matrix in gl-matrix column-major layout: field mI is element I of
the flat array, so column 0 is m0..m3, and m12..m15 is the translation
column. -/
structure M4 where
  m0 : ℚ
  m1 : ℚ
  m2 : ℚ
  m3 : ℚ
  m4 : ℚ
  m5 : ℚ
  m6 : ℚ
  m7 : ℚ
  m8 : ℚ
  m9 : ℚ
  m10 : ℚ
  m11 : ℚ
  m12 : ℚ
  m13 : ℚ
  m14 : ℚ
  m15 : ℚ
deriving DecidableEq, Repr

/-- gl-matrix vec4.transformMat4 with a column-major matrix. -/
def transformMat4 (a : V4) (m : M4) : V4 :=
  { x := m.m0 * a.x + m.m4 * a.y + m.m8 * a.z + m.m12 * a.w
    y := m.m1 * a.x + m.m5 * a.y + m.m9 * a.z + m.m13 * a.w
    z := m.m2 * a.x + m.m6 * a.y + m.m10 * a.z + m.m14 * a.w
    w := m.m3 * a.x + m.m7 * a.y + m.m11 * a.z + m.m15 * a.w }

/-- The custom fast transform of projection.js (xyTransformMat4): only the
x, y and w output components are written; the z slot keeps the input value,
exactly as the source leaves out[2] untouched. -/
def xyTransformMat4 (a : V4) (m : M4) : V4 :=
  { x := m.m0 * a.x + m.m4 * a.y + m.m12
    y := m.m1 * a.x + m.m5 * a.y + m.m13
    z := a.z
    w := m.m3 * a.x + m.m7 * a.y + m.m15 }

/-- The identity matrix, used to instantiate concrete scenarios. -/
def m4id : M4 :=
  { m0 := 1, m1 := 0, m2 := 0, m3 := 0
    m4 := 0, m5 := 1, m6 := 0, m7 := 0
    m8 := 0, m9 := 0, m10 := 1, m11 := 0
    m12 := 0, m13 := 0, m14 := 0, m15 := 1 }

/-! ## projection.js: perspective ratio -/

/-- Embedding of getPerspectiveRatio from src/symbol/projection.js:
the result of Math.min(0.5 + 0.5 * (cameraToCenterDistance /
signedDistanceFromCamera), 1.5). -/
def getPerspectiveRatio (cameraToCenterDistance signedDistanceFromCamera : ℚ) : ℚ :=
  min (1/2 + 1/2 * (cameraToCenterDistance / signedDistanceFromCamera)) (3/2)

/-- C1 (counterexample): the claim asserts the perspective ratio is at most
0.55 whenever the signed distance is at least 3.64 times the
camera-to-center distance; at cameraToCenterDistance = 1 and
signedDistanceFromCamera = 4 (which is at least 3.64) the ratio is 5/8,
which exceeds 0.55. -/
theorem getPerspectiveRatio_355_counterexample :
    (0 : ℚ) < 1 ∧ (364/100 : ℚ) * 1 ≤ 4 ∧
      ¬ (getPerspectiveRatio 1 4 ≤ 55/100) := by
  refine ⟨by norm_num, by norm_num, ?_⟩
  have h : getPerspectiveRatio 1 4 = 5/8 := by
    unfold getPerspectiveRatio
    norm_num
  rw [h]
  norm_num

/-- C1 (amended): getPerspectiveRatio is exactly the clamped formula
min(0.5 + 0.5 * c/s, 1.5); it never exceeds 1.5; it equals 1 at s = c for
every positive c; and it is at most 0.55 whenever s is at least 10 times c
(the code's own comment places the 0.55 cutoff at ten times the
camera-to-center distance, not at 3.64 times). -/
theorem getPerspectiveRatio_spec (c s : ℚ) :
    getPerspectiveRatio c s = min (1/2 + 1/2 * (c / s)) (3/2) ∧
    getPerspectiveRatio c s ≤ 3/2 ∧
    (0 < c → getPerspectiveRatio c c = 1) ∧
    (0 < c → 10 * c ≤ s → getPerspectiveRatio c s ≤ 55/100) := by
  refine ⟨rfl, min_le_right _ _, ?_, ?_⟩
  · intro hc
    unfold getPerspectiveRatio
    rw [div_self (ne_of_gt hc)]
    norm_num
  · intro hc hs
    have hspos : (0 : ℚ) < s := lt_of_lt_of_le (by linarith) hs
    have hdiv : c / s ≤ 1/10 := by
      rw [div_le_div_iff₀ hspos (by norm_num)]
      linarith
    calc getPerspectiveRatio c s ≤ 1/2 + 1/2 * (c / s) := min_le_left _ _
      _ ≤ 55/100 := by linarith

/-- C1 (witness): the amended statement evaluated at c = 1, s = 10: the
hypotheses 0 < 1 and 10 * 1 ≤ 10 hold, the ratio at (1, 1) is 1 and the
ratio at (1, 10) is at most 0.55. -/
theorem getPerspectiveRatio_spec_witness :
    (0 : ℚ) < 1 ∧ (10 : ℚ) * 1 ≤ 10 ∧
      getPerspectiveRatio 1 1 = 1 ∧ getPerspectiveRatio 1 10 ≤ 55/100 :=
  ⟨by norm_num, by norm_num,
    (getPerspectiveRatio_spec 1 1).2.2.1 (by norm_num),
    (getPerspectiveRatio_spec 1 10).2.2.2 (by norm_num) (by norm_num)⟩

/-! ## collision_index.js: data model

The collision index owns two spatial grids.  The grid implementation
(grid_index.js) is code of this repository that is not under src/; only its
contract is specified, so the grid is modelled from the spec below. -/

/-- A tile identifier; the embedding treats it as an opaque token consumed by
the projection interface. -/
structure TileID where
  z : ℕ
  x : ℕ
  y : ℕ
deriving DecidableEq, Repr

/-- Grid entry key: identifies the owning feature for overlap grouping,
mirroring the GridEntryKey of the spec and the key object built in
insertCollisionBox. -/
structure GridKey where
  bucketInstanceId : ℕ
  featureIndex : ℕ
  collisionGroupID : ℕ
deriving DecidableEq, Repr

/-- An axis-aligned rectangle in padded viewport coordinates. -/
structure Rect where
  x1 : ℚ
  y1 : ℚ
  x2 : ℚ
  y2 : ℚ
deriving DecidableEq, Repr

/-- Modelled from the spec: one committed box of the 2D spatial grid
(grid_index.js is not under src/). -/
structure GridEntry where
  key : GridKey
  box : Rect
deriving Repr

/-- Modelled from the spec: the grid's content is the sequence of committed
boxes, in insertion order. -/
abbrev Grid := List GridEntry

/-- Inclusive axis-aligned rectangle intersection: the overlap test a spatial
grid query performs between a stored entry and the queried box. -/
def rectsOverlap (a b : Rect) : Bool :=
  decide (a.x1 ≤ b.x2 ∧ b.x1 ≤ a.x2 ∧ a.y1 ≤ b.y2 ∧ b.y1 ≤ a.y2)

/-- Modelled from the spec: grid hitTest reports whether the grid already
holds an intersecting entry, restricted to entries accepted by the optional
collision-group predicate. -/
def hitTest (g : Grid) (q : Rect) (pred : Option (GridKey → Bool)) : Bool :=
  g.any fun e =>
    (match pred with
     | none => true
     | some f => f e.key) && rectsOverlap e.box q

/-- Modelled from the spec: grid insert appends a keyed box; it is the only
operation that grows the grid, and hitTest never modifies it. -/
def gridInsert (g : Grid) (key : GridKey) (box : Rect) : Grid :=
  g ++ [{ key := key, box := box }]

/-- Fog state consumed by the collision index: an opacity sample per tile
coordinate together with the clipping threshold.  getFogOpacityAtTileCoord
and FOG_SYMBOL_CLIPPING_THRESHOLD live in style/fog_helpers.js, an external
collaborator, so both are parameters here. -/
structure FogState where
  opacityAt : ℚ → ℚ → ℚ → TileID → ℚ
  threshold : ℚ

/-- The slice of the camera transform that placeCollisionBox consults,
together with the projection capabilities it uses (upVector and
upVectorScale are supplied by the active projection, outside this module). -/
structure CITransform where
  width : ℚ
  height : ℚ
  cameraToCenterDistance : ℚ
  pitch : ℚ
  isGlobe : Bool
  upVector : TileID → ℚ → ℚ → V3
  upVectorScaleMetersToTile : TileID → ℚ
  fogState : Option FogState

/-- The pass-scoped state of a CollisionIndex: the active grid and the
ignored grid. -/
structure CIState where
  grid : Grid
  ignoredGrid : Grid

/-- Embedding of SingleCollisionBox: rectangle extents in tile units plus
padding, the projected anchor, the tile anchor, and the optional elevation
and tile id.  A JavaScript undefined or zero elevation is modelled as 0,
matching the truthiness test of the source. -/
structure SingleCollisionBox where
  x1 : ℚ
  y1 : ℚ
  x2 : ℚ
  y2 : ℚ
  padding : ℚ
  projectedAnchorX : ℚ
  projectedAnchorY : ℚ
  projectedAnchorZ : ℚ
  tileAnchorX : ℚ
  tileAnchorY : ℚ
  elevation : ℚ
  tileID : Option TileID

/-- Argument bundle of one placeCollisionBox call. -/
structure PlaceArgs where
  scale : ℚ
  box : SingleCollisionBox
  shiftX : ℚ
  shiftY : ℚ
  allowOverlap : Bool
  textPixelRatio : ℚ
  posMatrix : M4
  predicate : Option (GridKey → Bool)

/-- Result of projectAndGetPerspectiveRatio. -/
structure ProjectedAnchor where
  point : Pt
  perspectiveRatio : ℚ
  signedDistanceFromCamera : ℚ
  occluded : Bool

/-- Result of placeCollisionBox: the accepted box corners (empty on
rejection), the off-screen flag and the occlusion flag. -/
structure PlaceResult where
  box : List ℚ
  offscreen : Bool
  occluded : Bool
deriving DecidableEq, Repr

/-- The viewport padding constant of collision_index.js. -/
def viewportPadding : ℚ := 100

/-! ## collision_index.js: operations -/

/-- Embedding of CollisionIndex.projectAndGetPerspectiveRatio: transform the
anchor into clip space (with the fast xy path when the z component is zero
and the map is unpitched), produce the padded viewport point, the
perspective ratio, the signed camera distance and the occlusion flag.  In
the fast path the z slot of the transformed vector keeps the input value 0,
exactly as the source never writes out[2]. -/
def projectAndGetPerspectiveRatio (tr : CITransform) (posMatrix : M4)
    (point : V3) (tileID : Option TileID) (checkOcclusion : Bool) :
    ProjectedAnchor :=
  let pIn : V4 := { x := point.x, y := point.y, z := point.z, w := 1 }
  let fullPath : Bool := decide (point.z ≠ 0 ∨ tr.pitch > 0)
  let p : V4 := if fullPath then transformMat4 pIn posMatrix
                else xyTransformMat4 pIn posMatrix
  let behindFog : Bool :=
    if fullPath then
      match tr.fogState, tileID with
      | some fog, some tid =>
          decide (fog.opacityAt point.x point.y point.z tid > fog.threshold)
      | _, _ => false
    else false
  { point := { x := (p.x / p.w + 1) / 2 * tr.width + viewportPadding
               y := (-p.y / p.w + 1) / 2 * tr.height + viewportPadding }
    perspectiveRatio :=
      min (1/2 + 1/2 * (tr.cameraToCenterDistance / p.w)) (3/2)
    signedDistanceFromCamera := p.w
    occluded := (checkOcclusion && decide (p.z > p.w)) || behindFog }

/-- The elevation-adjusted anchor of a collision box: when the box carries a
nonzero elevation and a tile id, the anchor is lifted along the projection's
up vector scaled by elevation, as in the head of placeCollisionBox. -/
def elevatedAnchor (tr : CITransform) (b : SingleCollisionBox) : V3 :=
  if b.elevation ≠ 0 ∧ b.tileID.isSome then
    let up := tr.upVector (b.tileID.getD ⟨0, 0, 0⟩) b.tileAnchorX b.tileAnchorY
    let upScale := tr.upVectorScaleMetersToTile (b.tileID.getD ⟨0, 0, 0⟩)
    { x := b.projectedAnchorX + up.x * b.elevation * upScale
      y := b.projectedAnchorY + up.y * b.elevation * upScale
      z := b.projectedAnchorZ + up.z * b.elevation * upScale }
  else
    { x := b.projectedAnchorX, y := b.projectedAnchorY, z := b.projectedAnchorZ }

/-- The projected point a placeCollisionBox call works with: occlusion
checking is enabled when the projection is globe, the box has a nonzero
elevation, or the transform is pitched. -/
def boxProjectedPoint (tr : CITransform) (a : PlaceArgs) : ProjectedAnchor :=
  let checkOcclusion : Bool := tr.isGlobe || decide (a.box.elevation ≠ 0) || decide (tr.pitch > 0)
  projectAndGetPerspectiveRatio tr a.posMatrix (elevatedAnchor tr a.box)
    a.box.tileID checkOcclusion

/-- The transformed box corners of a placeCollisionBox call: tile-unit
extents scaled by scale, shifted, padded, multiplied by
textPixelRatio times the perspective ratio, and centred on the projected
anchor. -/
def collisionCorners (tr : CITransform) (a : PlaceArgs) : Rect :=
  let pp := boxProjectedPoint tr a
  let tileToViewport := a.textPixelRatio * pp.perspectiveRatio
  { x1 := (a.box.x1 * a.scale + a.shiftX - a.box.padding) * tileToViewport + pp.point.x
    y1 := (a.box.y1 * a.scale + a.shiftY - a.box.padding) * tileToViewport + pp.point.y
    x2 := (a.box.x2 * a.scale + a.shiftX + a.box.padding) * tileToViewport + pp.point.x
    y2 := (a.box.y2 * a.scale + a.shiftY + a.box.padding) * tileToViewport + pp.point.y }

/-- Embedding of CollisionIndex.isOffscreen. -/
def isOffscreen (tr : CITransform) (x1 y1 x2 y2 : ℚ) : Bool :=
  decide (x2 < viewportPadding) || decide (x1 ≥ tr.width + viewportPadding) ||
  decide (y2 < viewportPadding) || decide (y1 > tr.height + viewportPadding)

/-- Embedding of CollisionIndex.isInsideGrid, against the grid boundaries
width + 2 * padding and height + 2 * padding. -/
def isInsideGrid (tr : CITransform) (x1 y1 x2 y2 : ℚ) : Bool :=
  decide (x2 ≥ 0) && decide (x1 < tr.width + 2 * viewportPadding) &&
  decide (y2 ≥ 0) && decide (y1 < tr.height + 2 * viewportPadding)

/-- The rejection condition of placeCollisionBox: outside the padded grid,
or overlap disallowed and the active grid reports a hit under the optional
predicate, or the perspective ratio is at most 0.55, or the point is
occluded. -/
def placeRejected (tr : CITransform) (st : CIState) (a : PlaceArgs) : Bool :=
  let pp := boxProjectedPoint tr a
  let r := collisionCorners tr a
  let isClipped := decide (pp.perspectiveRatio ≤ 55/100) || pp.occluded
  !(isInsideGrid tr r.x1 r.y1 r.x2 r.y2) ||
    (!a.allowOverlap && hitTest st.grid r a.predicate) || isClipped

/-- Embedding of CollisionIndex.placeCollisionBox: reject with an empty box,
or accept with the transformed corners and the off-screen flag. -/
def placeCollisionBox (tr : CITransform) (st : CIState) (a : PlaceArgs) :
    PlaceResult :=
  let pp := boxProjectedPoint tr a
  let r := collisionCorners tr a
  if placeRejected tr st a then
    { box := [], offscreen := false, occluded := pp.occluded }
  else
    { box := [r.x1, r.y1, r.x2, r.y2]
      offscreen := isOffscreen tr r.x1 r.y1 r.x2 r.y2
      occluded := false }

/-- Embedding of CollisionIndex.insertCollisionBox: commit the four corner
coordinates under the feature key into the ignored grid when ignorePlacement
is set, and into the active grid otherwise. -/
def insertCollisionBox (st : CIState) (collisionBox : List ℚ)
    (ignorePlacement : Bool) (bucketInstanceId featureIndex collisionGroupID : ℕ) :
    CIState :=
  let key : GridKey := ⟨bucketInstanceId, featureIndex, collisionGroupID⟩
  let box : Rect := ⟨collisionBox.getD 0 0, collisionBox.getD 1 0,
                     collisionBox.getD 2 0, collisionBox.getD 3 0⟩
  if ignorePlacement then
    { st with ignoredGrid := gridInsert st.ignoredGrid key box }
  else
    { st with grid := gridInsert st.grid key box }

/-! ## collision_index.js: theorems C3, C9, C2 -/

/-- The rejection flag of placeCollisionBox, unfolded into a proposition. -/
lemma placeRejected_eq_true_iff (tr : CITransform) (st : CIState) (a : PlaceArgs) :
    placeRejected tr st a = true ↔
      (isInsideGrid tr (collisionCorners tr a).x1 (collisionCorners tr a).y1
          (collisionCorners tr a).x2 (collisionCorners tr a).y2 = false ∨
       (a.allowOverlap = false ∧
         hitTest st.grid (collisionCorners tr a) a.predicate = true) ∨
       (boxProjectedPoint tr a).perspectiveRatio ≤ 55/100 ∨
       (boxProjectedPoint tr a).occluded = true) := by
  unfold placeRejected
  simp only [Bool.or_eq_true, Bool.and_eq_true, Bool.not_eq_true',
    decide_eq_true_eq]
  tauto

/-- C3: placeCollisionBox rejects (returns the empty box) exactly when the
transformed box lies outside the padded grid, or overlap is disallowed and
the active grid reports an intersecting entry under the optional group
predicate, or the perspective ratio is at most 0.55, or the projected point
is flagged occluded; otherwise it returns the four transformed corners and
whether they lie fully off-screen. -/
theorem placeCollisionBox_reject_iff (tr : CITransform) (st : CIState)
    (a : PlaceArgs) :
    ((placeCollisionBox tr st a).box = [] ↔
      (isInsideGrid tr (collisionCorners tr a).x1 (collisionCorners tr a).y1
          (collisionCorners tr a).x2 (collisionCorners tr a).y2 = false ∨
       (a.allowOverlap = false ∧
         hitTest st.grid (collisionCorners tr a) a.predicate = true) ∨
       (boxProjectedPoint tr a).perspectiveRatio ≤ 55/100 ∨
       (boxProjectedPoint tr a).occluded = true)) ∧
    ((placeCollisionBox tr st a).box = [] ∨
      ((placeCollisionBox tr st a).box =
         [(collisionCorners tr a).x1, (collisionCorners tr a).y1,
          (collisionCorners tr a).x2, (collisionCorners tr a).y2] ∧
       (placeCollisionBox tr st a).offscreen =
         isOffscreen tr (collisionCorners tr a).x1 (collisionCorners tr a).y1
           (collisionCorners tr a).x2 (collisionCorners tr a).y2)) := by
  by_cases h : placeRejected tr st a = true
  · refine ⟨?_, Or.inl ?_⟩ <;>
      simp [placeCollisionBox, h, ← placeRejected_eq_true_iff tr st a]
  · refine ⟨?_, Or.inr ⟨?_, ?_⟩⟩ <;>
      simp [placeCollisionBox, h, ← placeRejected_eq_true_iff tr st a]

/-- Modelled from the spec: grid hitTest only tests for room and never
inserts; the state-threaded reading returns the grid unchanged. -/
def hitTestStateful (g : Grid) (q : Rect) (pred : Option (GridKey → Bool)) :
    Bool × Grid :=
  (hitTest g q pred, g)

/-- State-threaded reading of placeCollisionBox: every grid operation the
source performs (a single hitTest on the active grid) is threaded through
the collision-index state, making the call's effect on the grids explicit. -/
def placeCollisionBoxStateful (tr : CITransform) (st : CIState) (a : PlaceArgs) :
    PlaceResult × CIState :=
  let pp := boxProjectedPoint tr a
  let r := collisionCorners tr a
  let hres := hitTestStateful st.grid r a.predicate
  let st' : CIState := { grid := hres.2, ignoredGrid := st.ignoredGrid }
  let isClipped := decide (pp.perspectiveRatio ≤ 55/100) || pp.occluded
  let rejected := !(isInsideGrid tr r.x1 r.y1 r.x2 r.y2) ||
    (!a.allowOverlap && hres.1) || isClipped
  (if rejected then
    { box := [], offscreen := false, occluded := pp.occluded }
   else
    { box := [r.x1, r.y1, r.x2, r.y2]
      offscreen := isOffscreen tr r.x1 r.y1 r.x2 r.y2
      occluded := false }, st')

/-- C9: placeCollisionBox leaves both grids unchanged (its only grid
operation is a hitTest), its result coincides with the pure reading, and
consequently running the identical call again on the resulting state returns
the identical result and state. -/
theorem placeCollisionBox_preserves_grids (tr : CITransform) (st : CIState)
    (a : PlaceArgs) :
    (placeCollisionBoxStateful tr st a).2 = st ∧
    (placeCollisionBoxStateful tr st a).1 = placeCollisionBox tr st a ∧
    placeCollisionBoxStateful tr (placeCollisionBoxStateful tr st a).2 a =
      placeCollisionBoxStateful tr st a := by
  have hst : (placeCollisionBoxStateful tr st a).2 = st := by
    cases st
    rfl
  refine ⟨hst, rfl, by rw [hst]⟩

/-- A non-rejected placeCollisionBox call returns exactly the transformed
corners. -/
lemma placeCollisionBox_accepted_box (tr : CITransform) (st : CIState)
    (a : PlaceArgs) (h : (placeCollisionBox tr st a).box ≠ []) :
    (placeCollisionBox tr st a).box =
      [(collisionCorners tr a).x1, (collisionCorners tr a).y1,
       (collisionCorners tr a).x2, (collisionCorners tr a).y2] := by
  by_cases hr : placeRejected tr st a = true
  · simp [placeCollisionBox, hr] at h
  · simp [placeCollisionBox, hr]

/-- Appending an overlapping entry to a grid makes an unpredicated hitTest
succeed. -/
lemma hitTest_append_overlapping (g : Grid) (q : Rect) (key : GridKey)
    (box : Rect) (h : rectsOverlap box q = true) :
    hitTest (g ++ [{ key := key, box := box }]) q none = true := by
  simp [hitTest, List.any_append, h]

/-- Rectangle overlap is symmetric. -/
lemma rectsOverlap_comm (a b : Rect) : rectsOverlap a b = rectsOverlap b a := by
  unfold rectsOverlap
  rw [decide_eq_decide]
  tauto

/-- Committing an accepted box and then placing a second, overlapping,
overlap-disallowing box rejects the second box. -/
lemma fcfs_one (tr : CITransform) (st : CIState) (aA aB : PlaceArgs)
    (kb kf kg : ℕ)
    (hBo : aB.allowOverlap = false) (hBp : aB.predicate = none)
    (hA : (placeCollisionBox tr st aA).box ≠ [])
    (hov : rectsOverlap (collisionCorners tr aA) (collisionCorners tr aB) = true) :
    (placeCollisionBox tr
        (insertCollisionBox st (placeCollisionBox tr st aA).box false kb kf kg)
        aB).box = [] := by
  set st' := insertCollisionBox st (placeCollisionBox tr st aA).box false kb kf kg
    with hst'
  have hboxA := placeCollisionBox_accepted_box tr st aA hA
  have hgrid : st'.grid = st.grid ++
      [{ key := ⟨kb, kf, kg⟩, box := collisionCorners tr aA }] := by
    rw [hst', insertCollisionBox, hboxA]
    simp [gridInsert]
  have hhit : hitTest st'.grid (collisionCorners tr aB) aB.predicate = true := by
    rw [hgrid, hBp]
    exact hitTest_append_overlapping _ _ _ _ hov
  have hrej : placeRejected tr st' aB = true := by
    rw [placeRejected_eq_true_iff]
    exact Or.inr (Or.inl ⟨hBo, hhit⟩)
  simp [placeCollisionBox, hrej]

/-- C2: grid acceptance is first-come-first-served.  For two overlapping
boxes A and B, both with overlap disallowed and no group predicate, each of
which would be accepted against the current index: committing A first makes
B's placement return the empty box, and committing B first makes A's
placement return the empty box. -/
theorem placeCollisionBox_first_come_first_served (tr : CITransform)
    (st : CIState) (aA aB : PlaceArgs) (bA fA gA bB fB gB : ℕ)
    (h1 : aA.allowOverlap = false) (h2 : aB.allowOverlap = false)
    (h3 : aA.predicate = none) (h4 : aB.predicate = none)
    (hA : (placeCollisionBox tr st aA).box ≠ [])
    (hB : (placeCollisionBox tr st aB).box ≠ [])
    (hov : rectsOverlap (collisionCorners tr aA) (collisionCorners tr aB) = true) :
    ((placeCollisionBox tr st aA).box ≠ [] ∧
     (placeCollisionBox tr
        (insertCollisionBox st (placeCollisionBox tr st aA).box false bA fA gA)
        aB).box = []) ∧
    ((placeCollisionBox tr st aB).box ≠ [] ∧
     (placeCollisionBox tr
        (insertCollisionBox st (placeCollisionBox tr st aB).box false bB fB gB)
        aA).box = []) := by
  refine ⟨⟨hA, fcfs_one tr st aA aB bA fA gA h2 h4 hA hov⟩,
          ⟨hB, fcfs_one tr st aB aA bB fB gB h1 h3 hB ?_⟩⟩
  rw [rectsOverlap_comm]
  exact hov

/-! ## projection.js: line label data model -/

/-- The tri-state flip state persisted on a symbol across frames. -/
inductive FlipState where
  | unknown
  | flipRequired
  | flipNotRequired
deriving DecidableEq, Repr

/-- Writing modes from symbol/shaping.js. -/
inductive WritingMode where
  | horizontal
  | vertical
  | horizontalOnly
deriving DecidableEq, Repr

/-- External numeric primitives used by the line-label placer.  They come
from collaborators outside this repository: mag is the point-geometry
Euclidean norm (the only place a square root occurs), atan2 and pi are the
JavaScript Math builtins, and maxTangent is Math.tan(85 * PI / 180), the
module-level constant of projection.js.  Keeping them as parameters keeps
the embedding exact and computable; no theorem constrains their values
unless it quantifies over them. -/
structure Geom where
  mag : Pt → ℚ
  atan2 : ℚ → ℚ → ℚ
  pi : ℚ
  maxTangent : ℚ

/-- Unit vector, modelling the point-geometry normalisation used by the
source (division of both components by the norm). -/
def unitVec (geom : Geom) (p : Pt) : Pt :=
  p.mult (1 / geom.mag p)

/-- Distance between two points, modelling point-geometry dist: the norm of
the difference. -/
def ptDist (geom : Geom) (p q : Pt) : ℚ :=
  geom.mag (p.sub q)

/-- A placed symbol record, mirroring the fields of the placed-symbol array
entries that updateLineLabels and placeGlyphsAlongLine consult and mutate. -/
structure PlacedSymbol where
  tileAnchorX : ℚ
  tileAnchorY : ℚ
  writingMode : WritingMode
  numGlyphs : ℕ
  glyphStartIndex : ℕ
  lineStartIndex : ℤ
  lineLength : ℤ
  segment : ℕ
  lineOffsetX : ℚ
  lineOffsetY : ℚ
  flipState : FlipState
  hidden : Bool
deriving DecidableEq, Repr

/-- Result of project: the perspective-divided point and the homogeneous w
component, named signedDistanceFromCamera as in the source. -/
structure Projected where
  point : Pt
  signedDistanceFromCamera : ℚ
deriving DecidableEq, Repr

/-- Embedding of project from src/symbol/projection.js: the full transform
when an elevation is supplied, the fast xy path otherwise. -/
def project (point : Pt) (matrix : M4) (elevation : ℚ) : Projected :=
  let pos : V4 := { x := point.x, y := point.y, z := elevation, w := 1 }
  let p := if elevation ≠ 0 then transformMat4 pos matrix
           else xyTransformMat4 pos matrix
  { point := ⟨p.x / p.w, p.y / p.w⟩, signedDistanceFromCamera := p.w }

/-- The projection capability the line-label placer consumes: the active
projection's projectTilePoint (planar-scaled for mercator, ECEF-normalized
for globe). -/
structure ProjectionI where
  projectTilePoint : ℚ → ℚ → TileID → V3

/-- Embedding of isVisible: the clip-space anchor divided by w must fall in
the padded viewport box given by the clipping buffer. -/
def isVisible (anchorPos : V4) (clippingBuffer : ℚ × ℚ) : Bool :=
  let x := anchorPos.x / anchorPos.w
  let y := anchorPos.y / anchorPos.w
  decide (x ≥ -clippingBuffer.1 ∧ x ≤ clippingBuffer.1 ∧
          y ≥ -clippingBuffer.2 ∧ y ≤ clippingBuffer.2)

/-! ## projection.js: orientation and flip hysteresis -/

/-- Embedding of isInFlipRetainRange: the rough angle between the projected
text line and the Y axis is within 5 degrees, that is, the absolute tangent
against the aspect-corrected x delta exceeds the module constant
maxTangent = tan(85 degrees); a zero x delta is inside the range by the
explicit early return of the source. -/
def isInFlipRetainRange (geom : Geom) (firstPoint lastPoint : Pt)
    (aspectRatio : ℚ) : Bool :=
  let deltaY := lastPoint.y - firstPoint.y
  let deltaX := (lastPoint.x - firstPoint.x) * aspectRatio
  if deltaX = 0 then true
  else decide (|deltaY / deltaX| > geom.maxTangent)

/-- The two orientation decisions requiresOrientationChange can report. -/
inductive OrientationChange where
  | useVertical
  | needsFlipping
deriving DecidableEq, Repr

/-- Embedding of requiresOrientationChange: horizontal symbols whose
projected rise exceeds the aspect-corrected run switch to vertical glyphs;
vertical-only symbols flip by the sign of the y delta; otherwise a known
flip state inside the retain range is reused, and the x delta sign decides
the rest. -/
def requiresOrientationChange (geom : Geom) (symbol : PlacedSymbol)
    (firstPoint lastPoint : Pt) (aspectRatio : ℚ) : Option OrientationChange :=
  if symbol.writingMode = .horizontal ∧
      |lastPoint.y - firstPoint.y| > |lastPoint.x - firstPoint.x| * aspectRatio then
    some .useVertical
  else if symbol.writingMode = .vertical then
    if firstPoint.y < lastPoint.y then some .needsFlipping else none
  else if symbol.flipState ≠ .unknown ∧
      isInFlipRetainRange geom firstPoint lastPoint aspectRatio = true then
    if symbol.flipState = .flipRequired then some .needsFlipping else none
  else if firstPoint.x > lastPoint.x then some .needsFlipping else none

/-- The flip-state commit of placeGlyphsAlongLine: after the orientation
decision, the symbol's flipState field is overwritten with flipRequired
exactly when the decision was needsFlipping, and flipNotRequired
otherwise. -/
def commitFlipState (symbol : PlacedSymbol) (oc : Option OrientationChange) :
    PlacedSymbol :=
  { symbol with flipState :=
      if oc = some .needsFlipping then .flipRequired else .flipNotRequired }

/-- C10: whenever the two projected points share their x coordinate, the x
delta is zero, and isInFlipRetainRange returns true through its explicit
zero test, so the tangent formula's division by zero is never evaluated and
vertically degenerate segments always count as inside the retain range. -/
theorem isInFlipRetainRange_equal_x (geom : Geom) (x y1 y2 aspectRatio : ℚ) :
    isInFlipRetainRange geom ⟨x, y1⟩ ⟨x, y2⟩ aspectRatio = true := by
  simp [isInFlipRetainRange]

/-- C4: flip hysteresis in the keepUpright general case (the symbol is not
vertical-only, and if horizontal its rise does not exceed the
aspect-corrected run).  When the persisted flip state is known and the
points are in the retain range, the previous decision is reused and the
persisted state is unchanged; otherwise the decision is needsFlipping
exactly when firstPoint.x > lastPoint.x, and that decision is persisted. -/
theorem requiresOrientationChange_hysteresis (geom : Geom)
    (symbol : PlacedSymbol) (firstPoint lastPoint : Pt) (aspectRatio : ℚ)
    (hv : symbol.writingMode ≠ .vertical)
    (hh : symbol.writingMode = .horizontal →
      |lastPoint.y - firstPoint.y| ≤ |lastPoint.x - firstPoint.x| * aspectRatio) :
    ((symbol.flipState ≠ .unknown ∧
        isInFlipRetainRange geom firstPoint lastPoint aspectRatio = true) →
      (requiresOrientationChange geom symbol firstPoint lastPoint aspectRatio =
         (if symbol.flipState = .flipRequired then some .needsFlipping else none) ∧
       (commitFlipState symbol
          (requiresOrientationChange geom symbol firstPoint lastPoint aspectRatio)).flipState =
         symbol.flipState)) ∧
    (¬ (symbol.flipState ≠ .unknown ∧
        isInFlipRetainRange geom firstPoint lastPoint aspectRatio = true) →
      (requiresOrientationChange geom symbol firstPoint lastPoint aspectRatio =
         (if firstPoint.x > lastPoint.x then some .needsFlipping else none) ∧
       (commitFlipState symbol
          (requiresOrientationChange geom symbol firstPoint lastPoint aspectRatio)).flipState =
         (if firstPoint.x > lastPoint.x then .flipRequired else .flipNotRequired))) := by
  have hfirst : ¬ (symbol.writingMode = .horizontal ∧
      |lastPoint.y - firstPoint.y| > |lastPoint.x - firstPoint.x| * aspectRatio) := by
    rintro ⟨hwm, hgt⟩
    exact absurd (hh hwm) (not_le.mpr hgt)
  constructor
  · rintro hretain
    rw [requiresOrientationChange, if_neg hfirst, if_neg hv, if_pos hretain]
    refine ⟨rfl, ?_⟩
    rcases hstate : symbol.flipState with _ | _ | _
    · exact absurd hstate hretain.1
    · simp [commitFlipState, requiresOrientationChange, if_neg hfirst,
        if_neg hv, if_pos hretain, hstate]
    · simp [commitFlipState, requiresOrientationChange, if_neg hfirst,
        if_neg hv, if_pos hretain, hstate]
  · intro hnot
    rw [requiresOrientationChange, if_neg hfirst, if_neg hv, if_neg hnot]
    refine ⟨rfl, ?_⟩
    by_cases hx : firstPoint.x > lastPoint.x
    · simp [commitFlipState, requiresOrientationChange, if_neg hfirst,
        if_neg hv, if_neg hnot, hx]
    · simp [commitFlipState, requiresOrientationChange, if_neg hfirst,
        if_neg hv, if_neg hnot, hx]

/-- Concrete geometry parameters for witnesses: a taxicab norm, an arbitrary
atan2 and pi, and a maxTangent of 2. -/
def geomW : Geom :=
  { mag := fun p => |p.x| + |p.y|
    atan2 := fun _ _ => 0
    pi := 3
    maxTangent := 2 }

/-- Concrete symbol for the C4 witness: general-case writing mode with a
known (flip-required) persisted state. -/
def symbolW : PlacedSymbol :=
  { tileAnchorX := 0, tileAnchorY := 0
    writingMode := .horizontalOnly
    numGlyphs := 2, glyphStartIndex := 0
    lineStartIndex := 0, lineLength := 3, segment := 0
    lineOffsetX := 0, lineOffsetY := 0
    flipState := .flipRequired, hidden := false }

/-- C4 (witness): at two points sharing x = 0 the retain range holds, the
symbol's known flip-required state is reused, and the persisted state stays
flip-required. -/
theorem requiresOrientationChange_hysteresis_witness :
    (symbolW.writingMode ≠ .vertical ∧
     (symbolW.writingMode = .horizontal →
       |(5:ℚ) - 0| ≤ |(0:ℚ) - 0| * 1) ∧
     (symbolW.flipState ≠ .unknown ∧
       isInFlipRetainRange geomW ⟨0, 0⟩ ⟨0, 5⟩ 1 = true)) ∧
    (requiresOrientationChange geomW symbolW ⟨0, 0⟩ ⟨0, 5⟩ 1 =
       (if symbolW.flipState = .flipRequired then some .needsFlipping else none) ∧
     (commitFlipState symbolW
        (requiresOrientationChange geomW symbolW ⟨0, 0⟩ ⟨0, 5⟩ 1)).flipState =
       symbolW.flipState) :=
  ⟨⟨by decide, fun h => absurd h (by decide),
    by decide, by simp [isInFlipRetainRange]⟩,
    (requiresOrientationChange_hysteresis geomW symbolW ⟨0, 0⟩ ⟨0, 5⟩ 1
      (by decide) (fun h => absurd h (by decide))).1
      ⟨by decide, by simp [isInFlipRetainRange]⟩⟩

/-! ## projection.js: glyph placement along a line -/

/-- The call-scoped projection cache: line-vertex index to projected point,
most recent entry first. -/
abbrev Cache := List (ℤ × Pt)

/-- Cache lookup for a line-vertex index. -/
def cacheLookup (c : Cache) (i : ℤ) : Option Pt :=
  (c.find? fun e => e.1 == i).map fun e => e.2

/-- Cache insertion (the source assigns projectionCache[currentIndex]). -/
def cacheInsert (c : Cache) (i : ℤ) (p : Pt) : Cache :=
  (i, p) :: c

/-- Reading a line vertex: getx/gety of the SymbolLineVertexArray at an
index.  Out-of-range indices are never read by the walk (the bounds check
precedes every access); the default is arbitrary. -/
def getVertex (lineVertexArray : List Pt) (i : ℤ) : Pt :=
  if i < 0 then ⟨0, 0⟩ else lineVertexArray.getD i.toNat ⟨0, 0⟩

/-- Embedding of elevatePointAndProject: project the tile point through the
active projection, add the sampled elevation vector when a sampler is
supplied, and project into the given matrix. -/
def elevatePointAndProject (proj : ProjectionI) (getElevation : Option (Pt → V3))
    (p : Pt) (tileID : TileID) (posMatrix : M4) : Projected :=
  let point := proj.projectTilePoint p.x p.y tileID
  match getElevation with
  | none => project ⟨point.x, point.y⟩ posMatrix point.z
  | some f =>
      let elevation := f p
      project ⟨point.x + elevation.x, point.y + elevation.y⟩ posMatrix
        (point.z + elevation.z)

/-- Embedding of projectTruncatedLineSegment: extrapolate one tile unit past
the previous tile point away from the current one, project that unit vertex,
and walk the projected direction from the previous projected point far
enough to cover minimumLength. -/
def projectTruncatedLineSegment (geom : Geom) (previousTilePoint currentTilePoint
    previousProjectedPoint : Pt) (minimumLength : ℚ) (projectionMatrix : M4)
    (getElevation : Option (Pt → V3)) (proj : ProjectionI) (tileID : TileID) : Pt :=
  let unitVertex := previousTilePoint.add
    (unitVec geom (previousTilePoint.sub currentTilePoint))
  let projectedUnitVertex :=
    (elevatePointAndProject proj getElevation unitVertex tileID projectionMatrix).point
  let projectedUnitSegment := previousProjectedPoint.sub projectedUnitVertex
  previousProjectedPoint.add
    (projectedUnitSegment.mult (minimumLength / geom.mag projectedUnitSegment))

/-- The loop-invariant parameters of the vertex walk inside
placeGlyphAlongLine. -/
structure WalkCtx where
  dirNeg : Bool
  absOffsetX : ℚ
  lineStartIndex : ℤ
  lineEndIndex : ℤ
  lineVertexArray : List Pt
  labelPlaneMatrix : M4
  getElevation : Option (Pt → V3)
  returnPathInTileCoords : Bool
  tileAnchorPoint : Pt
  proj : ProjectionI
  tileID : TileID
  geom : Geom

/-- The walk direction as an integer: -1 when iterating toward the line
start, +1 otherwise. -/
def walkDir (ctx : WalkCtx) : ℤ :=
  if ctx.dirNeg then -1 else 1

/-- The mutable state of the vertex walk: the loop variables of
placeGlyphAlongLine. -/
structure WalkState where
  currentIndex : ℤ
  current : Pt
  prev : Pt
  distanceToPrev : ℚ
  currentSegmentDistance : ℚ
  pathVertices : List Pt
  tilePath : List Pt
  currentVertex : Option Pt
  cache : Cache

/-- The previousTilePoint closure of placeGlyphAlongLine, evaluated after
the index increment: the tile anchor while no distance has been walked, and
the line vertex one step back otherwise. -/
def previousTilePoint (ctx : WalkCtx) (distanceToPrev : ℚ) (i : ℤ) : Pt :=
  if distanceToPrev = 0 then ctx.tileAnchorPoint
  else getVertex ctx.lineVertexArray (i - walkDir ctx)

/-- One iteration of the while loop of placeGlyphAlongLine, after the index
has been advanced to i and found in range: push the old current point onto
the path (and the tile path when requested), then obtain the projected
vertex from the cache, or project it (memoizing when its signed camera
distance is positive, synthesizing a truncated substitute point otherwise,
uncached), and update the walked distances. -/
def stepBody (ctx : WalkCtx) (st : WalkState) (i : ℤ) : WalkState :=
  let prevNew := st.current
  let pathNew := st.pathVertices ++ [st.current]
  let tilePathNew :=
    if ctx.returnPathInTileCoords then
      st.tilePath ++ [st.currentVertex.getD (previousTilePoint ctx st.distanceToPrev i)]
    else st.tilePath
  let dNew := st.distanceToPrev + st.currentSegmentDistance
  match cacheLookup st.cache i with
  | some c =>
      { currentIndex := i, current := c, prev := prevNew
        distanceToPrev := dNew
        currentSegmentDistance := ptDist ctx.geom prevNew c
        pathVertices := pathNew, tilePath := tilePathNew
        currentVertex := none, cache := st.cache }
  | none =>
      let v := getVertex ctx.lineVertexArray i
      let pr := elevatePointAndProject ctx.proj ctx.getElevation v ctx.tileID
        ctx.labelPlaneMatrix
      if pr.signedDistanceFromCamera > 0 then
        { currentIndex := i, current := pr.point, prev := prevNew
          distanceToPrev := dNew
          currentSegmentDistance := ptDist ctx.geom prevNew pr.point
          pathVertices := pathNew, tilePath := tilePathNew
          currentVertex := some v, cache := cacheInsert st.cache i pr.point }
      else
        let tc := projectTruncatedLineSegment ctx.geom
          (previousTilePoint ctx st.distanceToPrev i) v prevNew
          (ctx.absOffsetX - st.distanceToPrev + 1) ctx.labelPlaneMatrix
          ctx.getElevation ctx.proj ctx.tileID
        { currentIndex := i, current := tc, prev := prevNew
          distanceToPrev := dNew
          currentSegmentDistance := ptDist ctx.geom prevNew tc
          pathVertices := pathNew, tilePath := tilePathNew
          currentVertex := some v, cache := st.cache }

/-- Every branch of the step leaves the advanced index in the state. -/
lemma stepBody_currentIndex (ctx : WalkCtx) (st : WalkState) (i : ℤ) :
    (stepBody ctx st i).currentIndex = i := by
  unfold stepBody
  cases cacheLookup st.cache i
  · dsimp only
    split <;> rfl
  · rfl

/-- Result of the vertex walk: the offset did not fit before the index left
the symbol's vertex range (the null return of the source, carrying the
cache as mutated so far), or the loop exited with its final state. -/
inductive WalkRes where
  | fail (cache : Cache)
  | done (st : WalkState)

/-- The while loop of placeGlyphAlongLine: while the walked distance does
not yet cover the required offset, advance the index one step along the
walk direction, return the null result when it leaves the vertex range, and
otherwise run the loop body.  Termination: each iteration moves the index
one step toward the boundary it can exit through. -/
def walk (ctx : WalkCtx) (st : WalkState) : WalkRes :=
  if h1 : st.distanceToPrev + st.currentSegmentDistance ≤ ctx.absOffsetX then
    if h2 : st.currentIndex + walkDir ctx < ctx.lineStartIndex ∨
        ctx.lineEndIndex ≤ st.currentIndex + walkDir ctx then
      .fail st.cache
    else
      walk ctx (stepBody ctx st (st.currentIndex + walkDir ctx))
  else .done st
termination_by
  (if ctx.dirNeg then st.currentIndex + 1 - ctx.lineStartIndex
   else ctx.lineEndIndex - st.currentIndex).toNat
decreasing_by
  rw [stepBody_currentIndex]
  push_neg at h2
  obtain ⟨ha, hb⟩ := h2
  unfold walkDir at ha hb ⊢
  cases hd : ctx.dirNeg
  · simp only [hd, Bool.false_eq_true, if_false] at ha hb ⊢
    omega
  · simp only [hd, if_true] at ha hb ⊢
    omega

/-- A placed glyph: the label-plane position, the glyph rotation angle, and
the projected path walked to reach it (with its tile-coordinate companion
when requested). -/
structure Glyph where
  point : Pt
  angle : ℚ
  path : List Pt
  tilePath : List Pt
deriving DecidableEq, Repr

/-- Embedding of the interpolate helper of projection.js. -/
def interpolate (p1 p2 : Pt) (a : ℚ) : Pt :=
  ⟨p1.x * (1 - a) + p2.x * a, p1.y * (1 - a) + p2.y * a⟩

/-- Embedding of placeGlyphAlongLine: walk the line vertices outward from
the anchor segment in the offset direction until the accumulated projected
arc length covers the combined offset, then interpolate the glyph position
on the final segment, apply the perpendicular line offset, and compute the
glyph angle.  Returns none (with the cache as mutated so far) when the
offset does not fit on the line.  When endGlyph is set and an elevation
sampler is active, the end point is forcibly re-truncated to follow terrain
curvature and cached. -/
def placeGlyphAlongLine (geom : Geom) (proj : ProjectionI)
    (offsetX lineOffsetX lineOffsetY : ℚ) (flip : Bool)
    (anchorPoint tileAnchorPoint : Pt) (anchorSegment : ℕ)
    (lineStartIndex lineEndIndex : ℤ) (lineVertexArray : List Pt)
    (labelPlaneMatrix : M4) (projectionCache : Cache)
    (getElevation : Option (Pt → V3)) (returnPathInTileCoords endGlyph : Bool)
    (tileID : TileID) : Option Glyph × Cache :=
  let combinedOffsetX := if flip then offsetX - lineOffsetX else offsetX + lineOffsetX
  let dir0neg : Bool := !(decide (combinedOffsetX > 0))
  let dirNeg : Bool := if flip then !dir0neg else dir0neg
  let angle0 : ℚ := if flip then geom.pi else 0
  let angle : ℚ := if dirNeg then angle0 + geom.pi else angle0
  let dirQ : ℚ := if dirNeg then -1 else 1
  let currentIndex0 : ℤ :=
    if dirNeg then lineStartIndex + anchorSegment + 1
    else lineStartIndex + anchorSegment
  let ctx : WalkCtx :=
    { dirNeg := dirNeg, absOffsetX := |combinedOffsetX|
      lineStartIndex := lineStartIndex, lineEndIndex := lineEndIndex
      lineVertexArray := lineVertexArray, labelPlaneMatrix := labelPlaneMatrix
      getElevation := getElevation
      returnPathInTileCoords := returnPathInTileCoords
      tileAnchorPoint := tileAnchorPoint, proj := proj, tileID := tileID
      geom := geom }
  let st0 : WalkState :=
    { currentIndex := currentIndex0, current := anchorPoint
      prev := anchorPoint, distanceToPrev := 0, currentSegmentDistance := 0
      pathVertices := [], tilePath := [], currentVertex := some tileAnchorPoint
      cache := projectionCache }
  match walk ctx st0 with
  | .fail c => (none, c)
  | .done st =>
      let afterEnd : Pt × ℚ × Option Pt × Cache :=
        if endGlyph ∧ getElevation.isSome then
          let cv := st.currentVertex.getD (getVertex lineVertexArray st.currentIndex)
          let cur :=
            if (cacheLookup st.cache st.currentIndex).isSome then
              projectTruncatedLineSegment geom
                (previousTilePoint ctx st.distanceToPrev st.currentIndex) cv
                st.prev (ctx.absOffsetX - st.distanceToPrev + 1)
                labelPlaneMatrix getElevation proj tileID
            else st.current
          (cur, ptDist geom st.prev cur, some cv,
            cacheInsert st.cache st.currentIndex cur)
        else (st.current, st.currentSegmentDistance, st.currentVertex, st.cache)
      let current := afterEnd.1
      let csd := afterEnd.2.1
      let currentVertexO := afterEnd.2.2.1
      let cacheOut := afterEnd.2.2.2
      let segmentInterpolationT := (ctx.absOffsetX - st.distanceToPrev) / csd
      let prevToCurrent := current.sub st.prev
      let p0 := (prevToCurrent.mult segmentInterpolationT).add st.prev
      let p := if lineOffsetY ≠ 0 then
          p0.add (((unitVec geom prevToCurrent).perp).mult (lineOffsetY * dirQ))
        else p0
      let segmentAngle :=
        angle + geom.atan2 (current.y - st.prev.y) (current.x - st.prev.x)
      let tilePathOut :=
        if returnPathInTileCoords then
          let cv2 := currentVertexO.getD (getVertex lineVertexArray st.currentIndex)
          let prevVertex := (st.tilePath.getLast?).getD cv2
          st.tilePath ++ [interpolate prevVertex cv2 segmentInterpolationT]
        else st.tilePath
      (some { point := p, angle := segmentAngle
              path := st.pathVertices ++ [p], tilePath := tilePathOut }, cacheOut)

/-- Embedding of placeFirstAndLastGlyph: place the first and last glyph of
the symbol (both as end glyphs), threading the projection cache; a null
from either placement yields null. -/
def placeFirstAndLastGlyph (geom : Geom) (proj : ProjectionI) (fontScale : ℚ)
    (glyphOffsetArray : List ℚ) (lineOffsetX lineOffsetY : ℚ) (flip : Bool)
    (anchorPoint tileAnchorPoint : Pt) (symbol : PlacedSymbol)
    (lineVertexArray : List Pt) (labelPlaneMatrix : M4)
    (projectionCache : Cache) (getElevation : Option (Pt → V3))
    (returnPathInTileCoords : Bool) (tileID : TileID) :
    Option (Glyph × Glyph) × Cache :=
  let glyphEndIndex := symbol.glyphStartIndex + symbol.numGlyphs
  let lineStartIndex := symbol.lineStartIndex
  let lineEndIndex := symbol.lineStartIndex + symbol.lineLength
  let firstGlyphOffset := glyphOffsetArray.getD symbol.glyphStartIndex 0
  let lastGlyphOffset := glyphOffsetArray.getD (glyphEndIndex - 1) 0
  match placeGlyphAlongLine geom proj (fontScale * firstGlyphOffset)
      lineOffsetX lineOffsetY flip anchorPoint tileAnchorPoint symbol.segment
      lineStartIndex lineEndIndex lineVertexArray labelPlaneMatrix
      projectionCache getElevation returnPathInTileCoords true tileID with
  | (none, c1) => (none, c1)
  | (some firstPlacedGlyph, c1) =>
      match placeGlyphAlongLine geom proj (fontScale * lastGlyphOffset)
          lineOffsetX lineOffsetY flip anchorPoint tileAnchorPoint symbol.segment
          lineStartIndex lineEndIndex lineVertexArray labelPlaneMatrix
          c1 getElevation returnPathInTileCoords true tileID with
      | (none, c2) => (none, c2)
      | (some lastPlacedGlyph, c2) => (some (firstPlacedGlyph, lastPlacedGlyph), c2)

/-! ## projection.js: dynamic layout output -/

/-- One vertex of the dynamic layout array: x and y admit the -Infinity
sentinel (the bottom element), the third slot is the angle (or 0 for hidden
glyphs). -/
structure Vtx where
  x : WithBot ℚ
  y : WithBot ℚ
  z : ℚ
deriving DecidableEq

/-- The hidden-glyph vertex: x = -Infinity, y = -Infinity, z = 0, as in the
hiddenGlyphAttributes constant of the source. -/
def hiddenGlyphVertex : Vtx :=
  ⟨⊥, ⊥, 0⟩

/-- Modelled from the spec: addDynamicAttributes lives in
data/bucket/symbol_bucket.js, which is not under src/; per the spec's
output interface it appends four vertices per placed glyph, each carrying
the glyph's position and angle. -/
def addDynamicAttributes (arr : List Vtx) (p : Pt) (angle : ℚ) : List Vtx :=
  arr ++ List.replicate 4 ⟨(p.x : ℚ), (p.y : ℚ), angle⟩

/-- Embedding of hideGlyphs: per hidden glyph, resize by four vertices and
write the hidden-glyph attributes. -/
def hideGlyphs : ℕ → List Vtx → List Vtx
  | 0, arr => arr
  | n + 1, arr =>
      hideGlyphs n (arr ++ [hiddenGlyphVertex, hiddenGlyphVertex,
        hiddenGlyphVertex, hiddenGlyphVertex])

/-- The outcome record of one placeGlyphsAlongLine call: the three possible
flag objects of the source ({notEnoughRoom}, {useVertical}, {needsFlipping}
or success), together with the symbol (whose flipState the call may have
committed), the dynamic layout array and the projection cache as left by
the call. -/
structure GlyphsResult where
  notEnoughRoom : Bool
  useVertical : Bool
  needsFlipping : Bool
  symbol : PlacedSymbol
  dynArr : List Vtx
  cache : Cache

/-- Interior glyphs are guaranteed placeable once the first and last glyph
fit (comment in the source); a null interior placement would crash the
source, so this default is never observed. -/
def defaultGlyph : Glyph :=
  ⟨⟨0, 0⟩, 0, [], []⟩

/-- Embedding of placeGlyphsAlongLine.  Multi-glyph labels place the first
and last glyph to fix the orientation, commit the flip state when
keepUpright is requested on an unflipped pass, and return early on an
orientation change; otherwise interior glyphs are placed and all glyph
positions are appended to the dynamic layout array.  Single-glyph labels
decide orientation from the anchor's line segment (truncating the segment
end if it projects behind the camera) and then place their one glyph. -/
def placeGlyphsAlongLine (geom : Geom) (proj : ProjectionI)
    (symbol : PlacedSymbol) (fontSize : ℚ) (flip keepUpright : Bool)
    (posMatrix labelPlaneMatrix glCoordMatrix : M4)
    (glyphOffsetArray : List ℚ) (lineVertexArray : List Pt)
    (dynamicLayoutVertexArray : List Vtx)
    (anchorPoint tileAnchorPoint : Pt) (projectionCache : Cache)
    (aspectRatio : ℚ) (getElevation : Option (Pt → V3)) (tileID : TileID) :
    GlyphsResult :=
  let fontScale := fontSize / 24
  let lineOffsetX := symbol.lineOffsetX * fontScale
  let lineOffsetY := symbol.lineOffsetY * fontScale
  if symbol.numGlyphs > 1 then
    let glyphEndIndex := symbol.glyphStartIndex + symbol.numGlyphs
    let lineStartIndex := symbol.lineStartIndex
    let lineEndIndex := symbol.lineStartIndex + symbol.lineLength
    match placeFirstAndLastGlyph geom proj fontScale glyphOffsetArray
        lineOffsetX lineOffsetY flip anchorPoint tileAnchorPoint symbol
        lineVertexArray labelPlaneMatrix projectionCache getElevation false
        tileID with
    | (none, c1) =>
        { notEnoughRoom := true, useVertical := false, needsFlipping := false
          symbol := symbol, dynArr := dynamicLayoutVertexArray, cache := c1 }
    | (some firstAndLastGlyph, c1) =>
        let firstPoint := (project firstAndLastGlyph.1.point glCoordMatrix 0).point
        let lastPoint := (project firstAndLastGlyph.2.point glCoordMatrix 0).point
        let step : PlacedSymbol × Option OrientationChange :=
          if keepUpright && !flip then
            let oc := requiresOrientationChange geom symbol firstPoint lastPoint
              aspectRatio
            (commitFlipState symbol oc, oc)
          else (symbol, none)
        match step.2 with
        | some .useVertical =>
            { notEnoughRoom := false, useVertical := true, needsFlipping := false
              symbol := step.1, dynArr := dynamicLayoutVertexArray, cache := c1 }
        | some .needsFlipping =>
            { notEnoughRoom := false, useVertical := false, needsFlipping := true
              symbol := step.1, dynArr := dynamicLayoutVertexArray, cache := c1 }
        | none =>
            let interior := (List.range (symbol.numGlyphs - 2)).foldl
              (fun (acc : List Glyph × Cache) k =>
                let glyphIndex := symbol.glyphStartIndex + 1 + k
                let r := placeGlyphAlongLine geom proj
                  (fontScale * glyphOffsetArray.getD glyphIndex 0)
                  lineOffsetX lineOffsetY flip anchorPoint tileAnchorPoint
                  symbol.segment lineStartIndex lineEndIndex lineVertexArray
                  labelPlaneMatrix acc.2 getElevation false false tileID
                (acc.1 ++ [r.1.getD defaultGlyph], r.2)) ([], c1)
            let placedGlyphs := firstAndLastGlyph.1 :: (interior.1 ++ [firstAndLastGlyph.2])
            let dynOut := placedGlyphs.foldl
              (fun a g => addDynamicAttributes a g.point g.angle)
              dynamicLayoutVertexArray
            { notEnoughRoom := false, useVertical := false, needsFlipping := false
              symbol := step.1, dynArr := dynOut, cache := interior.2 }
  else
    let step : PlacedSymbol × Option OrientationChange :=
      if keepUpright && !flip then
        let a := (project tileAnchorPoint posMatrix 0).point
        let tileVertexIndex := symbol.lineStartIndex + (symbol.segment : ℤ) + 1
        let tileSegmentEnd := getVertex lineVertexArray tileVertexIndex
        let projectedVertex := project tileSegmentEnd posMatrix 0
        let b := if projectedVertex.signedDistanceFromCamera > 0 then
            projectedVertex.point
          else projectTruncatedLineSegment geom tileAnchorPoint tileSegmentEnd a 1
            posMatrix none proj tileID
        let oc := requiresOrientationChange geom symbol a b aspectRatio
        (commitFlipState symbol oc, oc)
      else (symbol, none)
    match step.2 with
    | some .useVertical =>
        { notEnoughRoom := false, useVertical := true, needsFlipping := false
          symbol := step.1, dynArr := dynamicLayoutVertexArray
          cache := projectionCache }
    | some .needsFlipping =>
        { notEnoughRoom := false, useVertical := false, needsFlipping := true
          symbol := step.1, dynArr := dynamicLayoutVertexArray
          cache := projectionCache }
    | none =>
        match placeGlyphAlongLine geom proj
            (fontScale * glyphOffsetArray.getD symbol.glyphStartIndex 0)
            lineOffsetX lineOffsetY flip anchorPoint tileAnchorPoint
            symbol.segment symbol.lineStartIndex
            (symbol.lineStartIndex + symbol.lineLength) lineVertexArray
            labelPlaneMatrix projectionCache getElevation false false tileID with
        | (none, c1) =>
            { notEnoughRoom := true, useVertical := false, needsFlipping := false
              symbol := step.1, dynArr := dynamicLayoutVertexArray, cache := c1 }
        | (some singleGlyph, c1) =>
            { notEnoughRoom := false, useVertical := false, needsFlipping := false
              symbol := step.1
              dynArr := addDynamicAttributes dynamicLayoutVertexArray
                singleGlyph.point singleGlyph.angle
              cache := c1 }

/-! ## projection.js: updateLineLabels -/

/-- The per-frame inputs updateLineLabels works with: the matrices, flags,
camera scalars and collaborator functions (symbol sizing is evaluated by
symbol_size.js, outside this module, so it enters as a function of the
symbol). -/
structure LineLabelCtx where
  posMatrix : M4
  labelPlaneMatrix : M4
  glCoordMatrix : M4
  pitchWithMap : Bool
  keepUpright : Bool
  getElevation : Option (Pt → V3)
  tileID : TileID
  painterWidth : ℚ
  painterHeight : ℚ
  trWidth : ℚ
  trHeight : ℚ
  cameraToCenterDistance : ℚ
  sizeForFeature : PlacedSymbol → ℚ
  glyphOffsetArray : List ℚ
  lineVertexArray : List Pt
  proj : ProjectionI
  geom : Geom

/-- The clipping buffer of updateLineLabels: 256 / viewport dimension * 2
plus 1, per axis. -/
def clippingBuffer (ctx : LineLabelCtx) : ℚ × ℚ :=
  (256 / ctx.painterWidth * 2 + 1, 256 / ctx.painterHeight * 2 + 1)

/-- The aspect ratio consulted by the orientation logic: transform width
over transform height. -/
def aspectRatioOf (ctx : LineLabelCtx) : ℚ :=
  ctx.trWidth / ctx.trHeight

/-- The elevation-adjusted projected anchor of a symbol (projectTilePoint
plus the sampled elevation vector). -/
def elevatedAnchorOf (ctx : LineLabelCtx) (symbol : PlacedSymbol) : V3 :=
  let tileAnchorPoint : Pt := ⟨symbol.tileAnchorX, symbol.tileAnchorY⟩
  let elevation : V3 := match ctx.getElevation with
    | some f => f tileAnchorPoint
    | none => ⟨0, 0, 0⟩
  let projectedAnchor :=
    ctx.proj.projectTilePoint symbol.tileAnchorX symbol.tileAnchorY ctx.tileID
  ⟨projectedAnchor.x + elevation.x, projectedAnchor.y + elevation.y,
   projectedAnchor.z + elevation.z⟩

/-- The clip-space anchor position of a symbol: the elevated anchor pushed
through the tile's position matrix. -/
def anchorClipPos (ctx : LineLabelCtx) (symbol : PlacedSymbol) : V4 :=
  let e := elevatedAnchorOf ctx symbol
  transformMat4 ⟨e.x, e.y, e.z, 1⟩ ctx.posMatrix

/-- The label-plane anchor of a symbol: the elevated anchor projected
through the label-plane matrix, whose w component is the signed distance
from the camera consulted by the behind-camera gate. -/
def labelPlaneAnchorOf (ctx : LineLabelCtx) (symbol : PlacedSymbol) : Projected :=
  let e := elevatedAnchorOf ctx symbol
  project ⟨e.x, e.y⟩ ctx.labelPlaneMatrix e.z

/-- The perspective-corrected font size of a symbol: divided by the
perspective ratio when pitched with the map, multiplied otherwise. -/
def pitchScaledFontSizeOf (ctx : LineLabelCtx) (symbol : PlacedSymbol) : ℚ :=
  let cameraToAnchorDistance := (anchorClipPos ctx symbol).w
  let perspectiveRatio :=
    getPerspectiveRatio ctx.cameraToCenterDistance cameraToAnchorDistance
  let fontSize := ctx.sizeForFeature symbol
  if ctx.pitchWithMap then fontSize / perspectiveRatio
  else fontSize * perspectiveRatio

/-- The elevation sampler passed to glyph placement: none when pitched with
the map (elevation does not affect that projection), the context's sampler
otherwise. -/
def getElevationForPlacement (ctx : LineLabelCtx) : Option (Pt → V3) :=
  if ctx.pitchWithMap then none else ctx.getElevation

/-- The unflipped placeGlyphsAlongLine call a symbol's iteration of
updateLineLabels performs, with a fresh projection cache. -/
def placeUnflippedOf (ctx : LineLabelCtx) (symbol : PlacedSymbol)
    (arr : List Vtx) : GlyphsResult :=
  placeGlyphsAlongLine ctx.geom ctx.proj symbol
    (pitchScaledFontSizeOf ctx symbol) false ctx.keepUpright ctx.posMatrix
    ctx.labelPlaneMatrix ctx.glCoordMatrix ctx.glyphOffsetArray
    ctx.lineVertexArray arr (labelPlaneAnchorOf ctx symbol).point
    ⟨symbol.tileAnchorX, symbol.tileAnchorY⟩ [] (aspectRatioOf ctx)
    (getElevationForPlacement ctx) ctx.tileID

/-- How one updateLineLabels iteration disposed of its symbol: suppressed by
the hidden flag or the vertical pairing rule, hidden by the viewport gate,
hidden by the behind-camera gate, or handed to glyph placement. -/
inductive SymbolOutcome where
  | suppressed
  | anchorOutsideViewport
  | behindCamera
  | attempted
deriving DecidableEq, Repr

/-- The outputs of one updateLineLabels iteration: the useVertical flag
carried to the next symbol, the dynamic layout array, the (possibly
flip-state-mutated) symbol, and the branch taken. -/
structure ProcResult where
  useVertical : Bool
  dynArr : List Vtx
  symbol : PlacedSymbol
  outcome : SymbolOutcome

/-- The vertical-only exemption test of updateLineLabels: a symbol is
exempt from the vertical pairing rule when it is the first symbol or its
predecessor is not horizontal. -/
def pairExempt (prevSymbol : Option PlacedSymbol) : Bool :=
  match prevSymbol with
  | none => true
  | some p => decide (p.writingMode ≠ .horizontal)

/-- The glyph-placement stage of one updateLineLabels iteration, reached
once the symbol passed the pairing gate, the viewport gate and the
behind-camera gate: the unflipped placement runs, its useVertical flag is
carried over, its projection cache is discarded before the flipped pass
when a terrain sampler is active, and not-enough-room, useVertical or a
failed flipped pass all emit the hidden sentinel. -/
def processSymbolPlace (ctx : LineLabelCtx) (arr : List Vtx)
    (symbol : PlacedSymbol) : ProcResult :=
  let labelPlaneAnchorPoint := labelPlaneAnchorOf ctx symbol
  let placeUnflipped := placeUnflippedOf ctx symbol arr
  let uvOut := placeUnflipped.useVertical
  let cache2 : Cache :=
    if (getElevationForPlacement ctx).isSome && placeUnflipped.needsFlipping
    then [] else placeUnflipped.cache
  if placeUnflipped.notEnoughRoom || uvOut then
    { useVertical := uvOut
      dynArr := hideGlyphs symbol.numGlyphs placeUnflipped.dynArr
      symbol := placeUnflipped.symbol, outcome := .attempted }
  else if placeUnflipped.needsFlipping then
    let placeFlipped := placeGlyphsAlongLine ctx.geom ctx.proj
      placeUnflipped.symbol (pitchScaledFontSizeOf ctx symbol) true
      ctx.keepUpright ctx.posMatrix ctx.labelPlaneMatrix ctx.glCoordMatrix
      ctx.glyphOffsetArray ctx.lineVertexArray placeUnflipped.dynArr
      labelPlaneAnchorPoint.point ⟨symbol.tileAnchorX, symbol.tileAnchorY⟩
      cache2 (aspectRatioOf ctx) (getElevationForPlacement ctx) ctx.tileID
    if placeFlipped.notEnoughRoom then
      { useVertical := uvOut
        dynArr := hideGlyphs symbol.numGlyphs placeFlipped.dynArr
        symbol := placeFlipped.symbol, outcome := .attempted }
    else
      { useVertical := uvOut, dynArr := placeFlipped.dynArr
        symbol := placeFlipped.symbol, outcome := .attempted }
  else
    { useVertical := uvOut, dynArr := placeUnflipped.dynArr
      symbol := placeUnflipped.symbol, outcome := .attempted }

/-- The visibility stage of one updateLineLabels iteration: the clip-space
anchor must pass the padded viewport test and the label-plane anchor must
be in front of the camera, otherwise the hidden sentinel is emitted (with
the useVertical flag reset to false, as the source resets it before these
gates); a symbol passing both gates is handed to glyph placement. -/
def processSymbolVisible (ctx : LineLabelCtx) (arr : List Vtx)
    (symbol : PlacedSymbol) : ProcResult :=
  let anchorPos := anchorClipPos ctx symbol
  if !(isVisible anchorPos (clippingBuffer ctx)) then
    { useVertical := false, dynArr := hideGlyphs symbol.numGlyphs arr
      symbol := symbol, outcome := .anchorOutsideViewport }
  else
    let labelPlaneAnchorPoint := labelPlaneAnchorOf ctx symbol
    if labelPlaneAnchorPoint.signedDistanceFromCamera ≤ 0 then
      { useVertical := false, dynArr := hideGlyphs symbol.numGlyphs arr
        symbol := symbol, outcome := .behindCamera }
    else
      processSymbolPlace ctx arr symbol

/-- The useVertical update at the head of one updateLineLabels iteration:
an exempt vertical symbol arriving with useVertical off switches it on. -/
def pairUseVertical (useVertical : Bool) (symbol : PlacedSymbol)
    (prevSymbol : Option PlacedSymbol) : Bool :=
  if decide (symbol.writingMode = .vertical) && !useVertical &&
      pairExempt prevSymbol then true
  else useVertical

/-- The loop body of updateLineLabels for one symbol: hidden or unpaired
vertical symbols emit the hidden sentinel and are suppressed; everything
else runs through the visibility gates and glyph placement. -/
def processSymbol (ctx : LineLabelCtx) (useVertical : Bool) (arr : List Vtx)
    (symbol : PlacedSymbol) (prevSymbol : Option PlacedSymbol) : ProcResult :=
  let uv1 : Bool := pairUseVertical useVertical symbol prevSymbol
  if (symbol.hidden || decide (symbol.writingMode = .vertical)) && !uv1 then
    { useVertical := uv1, dynArr := hideGlyphs symbol.numGlyphs arr
      symbol := symbol, outcome := .suppressed }
  else
    processSymbolVisible ctx arr symbol

/-- The symbol loop of updateLineLabels: fold processSymbol over the placed
symbols in array order, threading the useVertical flag and the dynamic
layout array and remembering each symbol's predecessor. -/
def updateLineLabelsGo (ctx : LineLabelCtx) (useVertical : Bool)
    (arr : List Vtx) (prev : Option PlacedSymbol) :
    List PlacedSymbol → List Vtx × List PlacedSymbol
  | [] => (arr, [])
  | s :: rest =>
      let r := processSymbol ctx useVertical arr s prev
      let res := updateLineLabelsGo ctx r.useVertical r.dynArr (some s) rest
      (res.1, r.symbol :: res.2)

/-- Embedding of updateLineLabels: the dynamic layout array starts cleared,
the useVertical flag starts false, and the symbols are processed in array
order; the result is the filled dynamic layout array and the mutated
symbols. -/
def updateLineLabels (ctx : LineLabelCtx) (symbols : List PlacedSymbol) :
    List Vtx × List PlacedSymbol :=
  updateLineLabelsGo ctx false [] none symbols

/-! ## projection.js: theorems C8, C5, C6, C7 -/

/-- Unfolding of the hideGlyphs loop into a replicate. -/
lemma hideGlyphs_eq (n : ℕ) (arr : List Vtx) :
    hideGlyphs n arr = arr ++ List.replicate (4 * n) hiddenGlyphVertex := by
  induction n generalizing arr with
  | zero => simp [hideGlyphs]
  | succ k ih =>
      rw [hideGlyphs, ih, List.append_assoc]
      have h4 : 4 * (k + 1) = 4 + 4 * k := by ring
      rw [h4, List.replicate_add]
      rfl

/-- C8: hiding n glyphs appends exactly 4 n vertices to the dynamic layout
array, each equal to the hidden sentinel (x = -Infinity, y = -Infinity,
z = 0), and leaves the existing content untouched. -/
theorem hideGlyphs_appends_sentinels (n : ℕ) (arr : List Vtx) :
    hideGlyphs n arr = arr ++ List.replicate (4 * n) hiddenGlyphVertex ∧
    (hideGlyphs n arr).length = arr.length + 4 * n ∧
    hiddenGlyphVertex = ⟨⊥, ⊥, 0⟩ := by
  refine ⟨hideGlyphs_eq n arr, ?_, rfl⟩
  rw [hideGlyphs_eq n arr]
  simp

/-- C5: whenever a symbol's clip-space anchor fails the padded viewport test
or its label-plane anchor has nonpositive signed distance from the camera,
the updateLineLabels iteration for that symbol appends exactly the hidden
sentinel for all of its glyphs, leaves the symbol (its flip state included)
unchanged, and never reaches glyph placement. -/
theorem updateLineLabels_visibility_gate (ctx : LineLabelCtx) (uv : Bool)
    (arr : List Vtx) (symbol : PlacedSymbol) (prevSymbol : Option PlacedSymbol)
    (h : isVisible (anchorClipPos ctx symbol) (clippingBuffer ctx) = false ∨
      (labelPlaneAnchorOf ctx symbol).signedDistanceFromCamera ≤ 0) :
    (processSymbol ctx uv arr symbol prevSymbol).dynArr =
      hideGlyphs symbol.numGlyphs arr ∧
    (processSymbol ctx uv arr symbol prevSymbol).symbol = symbol ∧
    (processSymbol ctx uv arr symbol prevSymbol).outcome ≠ .attempted := by
  simp only [processSymbol]
  split
  · exact ⟨rfl, rfl, by simp⟩
  · simp only [processSymbolVisible]
    split
    · exact ⟨rfl, rfl, by simp⟩
    · next hvis =>
        split
        · exact ⟨rfl, rfl, by simp⟩
        · next hw =>
            exfalso
            rcases h with h | h
            · rw [h] at hvis
              simp at hvis
            · exact hw h

/-- C6: behind-camera truncation and not-enough-room reporting.  First, a
loop step whose freshly visited line vertex projects with nonpositive
signed camera distance still produces a state (never an abort): its current
point is the substitute synthesized by projectTruncatedLineSegment,
extrapolated one unit past the previous tile point and sized to the
remaining required spacing plus one.  Second, the walk returns the null
result exactly by leaving the symbol's line vertex range.  Third, a
multi-glyph placeGlyphsAlongLine call whose first-and-last placement
returns null reports notEnoughRoom rather than failing. -/
theorem placeGlyphAlongLine_behind_camera :
    (∀ (ctx : WalkCtx) (st : WalkState) (i : ℤ),
       cacheLookup st.cache i = none →
       (elevatePointAndProject ctx.proj ctx.getElevation
           (getVertex ctx.lineVertexArray i) ctx.tileID
           ctx.labelPlaneMatrix).signedDistanceFromCamera ≤ 0 →
       (stepBody ctx st i).current =
         projectTruncatedLineSegment ctx.geom
           (previousTilePoint ctx st.distanceToPrev i)
           (getVertex ctx.lineVertexArray i) st.current
           (ctx.absOffsetX - st.distanceToPrev + 1) ctx.labelPlaneMatrix
           ctx.getElevation ctx.proj ctx.tileID) ∧
    (∀ (ctx : WalkCtx) (st : WalkState),
       st.distanceToPrev + st.currentSegmentDistance ≤ ctx.absOffsetX →
       (st.currentIndex + walkDir ctx < ctx.lineStartIndex ∨
         ctx.lineEndIndex ≤ st.currentIndex + walkDir ctx) →
       walk ctx st = .fail st.cache) ∧
    (∀ (geom : Geom) (proj : ProjectionI) (symbol : PlacedSymbol)
        (fontSize : ℚ) (flip keepUpright : Bool) (pm lpm gcm : M4)
        (goa : List ℚ) (lva : List Pt) (arr : List Vtx) (ap tap : Pt)
        (cache : Cache) (ar : ℚ) (ge : Option (Pt → V3)) (tid : TileID),
       symbol.numGlyphs > 1 →
       (placeFirstAndLastGlyph geom proj (fontSize / 24) goa
          (symbol.lineOffsetX * (fontSize / 24))
          (symbol.lineOffsetY * (fontSize / 24)) flip ap tap symbol lva lpm
          cache ge false tid).1 = none →
       (placeGlyphsAlongLine geom proj symbol fontSize flip keepUpright pm lpm
          gcm goa lva arr ap tap cache ar ge tid).notEnoughRoom = true) := by
  refine ⟨?_, ?_, ?_⟩
  · intro ctx st i hc hw
    simp only [stepBody, hc]
    rw [if_neg (not_lt.mpr hw)]
  · intro ctx st h1 h2
    rw [walk]
    rw [dif_pos h1, dif_pos h2]
  · intro geom proj symbol fontSize flip keepUpright pm lpm gcm goa lva arr
      ap tap cache ar ge tid hn hfl
    rcases hres : placeFirstAndLastGlyph geom proj (fontSize / 24) goa
        (symbol.lineOffsetX * (fontSize / 24))
        (symbol.lineOffsetY * (fontSize / 24)) flip ap tap symbol lva lpm
        cache ge false tid with ⟨o, c⟩
    rw [hres] at hfl
    simp only at hfl
    subst hfl
    simp only [placeGlyphsAlongLine, if_pos hn, hres]

/-- The placement stage always reports the attempted outcome. -/
lemma processSymbolPlace_outcome (ctx : LineLabelCtx) (arr : List Vtx)
    (symbol : PlacedSymbol) :
    (processSymbolPlace ctx arr symbol).outcome = .attempted := by
  simp only [processSymbolPlace]
  repeat' split
  all_goals rfl

/-- The placement stage carries the unflipped call's useVertical flag. -/
lemma processSymbolPlace_useVertical (ctx : LineLabelCtx) (arr : List Vtx)
    (symbol : PlacedSymbol) :
    (processSymbolPlace ctx arr symbol).useVertical =
      (placeUnflippedOf ctx symbol arr).useVertical := by
  simp only [processSymbolPlace]
  repeat' split
  all_goals rfl

/-- The visibility stage never reports the suppressed outcome. -/
lemma processSymbolVisible_outcome_ne (ctx : LineLabelCtx) (arr : List Vtx)
    (symbol : PlacedSymbol) :
    (processSymbolVisible ctx arr symbol).outcome ≠ .suppressed := by
  simp only [processSymbolVisible]
  split
  · simp
  · split
    · simp
    · rw [processSymbolPlace_outcome]
      simp

/-- The visibility stage reports useVertical exactly when it reached
placement and the unflipped call decided useVertical. -/
lemma processSymbolVisible_useVertical_iff (ctx : LineLabelCtx)
    (arr : List Vtx) (symbol : PlacedSymbol) :
    ((processSymbolVisible ctx arr symbol).useVertical = true ↔
      ((processSymbolVisible ctx arr symbol).outcome = .attempted ∧
       (placeUnflippedOf ctx symbol arr).useVertical = true)) := by
  simp only [processSymbolVisible]
  split
  · simp
  · split
    · simp
    · rw [processSymbolPlace_outcome, processSymbolPlace_useVertical]
      simp

/-- A horizontal symbol's iteration emits useVertical exactly when its
placement ran and the unflipped call decided useVertical. -/
lemma processSymbol_horizontal_useVertical (ctx : LineLabelCtx) (uv : Bool)
    (arr : List Vtx) (prevSym : PlacedSymbol) (p2 : Option PlacedSymbol)
    (hp : prevSym.writingMode = .horizontal) :
    ((processSymbol ctx uv arr prevSym p2).useVertical = true ↔
      ((processSymbol ctx uv arr prevSym p2).outcome = .attempted ∧
       (placeUnflippedOf ctx prevSym arr).useVertical = true)) := by
  have huv1 : pairUseVertical uv prevSym p2 = uv := by
    simp [pairUseVertical, hp]
  simp only [processSymbol, huv1]
  split
  · next hc =>
      cases uv
      · simp
      · simp at hc
  · exact processSymbolVisible_useVertical_iff ctx arr prevSym

/-- A vertical symbol whose predecessor is horizontal passes the pairing
gate exactly when the carried useVertical flag is on. -/
lemma processSymbol_vertical_gate (ctx : LineLabelCtx) (b : Bool)
    (arr2 : List Vtx) (sym prev : PlacedSymbol)
    (hs : sym.writingMode = .vertical) (hp : prev.writingMode = .horizontal) :
    ((processSymbol ctx b arr2 sym (some prev)).outcome ≠ .suppressed ↔
      b = true) := by
  have hex : pairExempt (some prev) = false := by
    simp [pairExempt, hp]
  have huv1 : pairUseVertical b sym (some prev) = b := by
    simp [pairUseVertical, hex]
  simp only [processSymbol, huv1]
  cases b
  · rw [if_pos]
    · simp
    · simp [hs]
  · rw [if_neg]
    · simp [processSymbolVisible_outcome_ne ctx arr2 sym]
    · simp

/-- An exempt vertical symbol always passes the pairing gate. -/
lemma processSymbol_exempt_gate (ctx : LineLabelCtx) (uv : Bool)
    (arr : List Vtx) (sym : PlacedSymbol) (p2 : Option PlacedSymbol)
    (hs : sym.writingMode = .vertical) (hex : pairExempt p2 = true) :
    (processSymbol ctx uv arr sym p2).outcome ≠ .suppressed := by
  have huv1 : pairUseVertical uv sym p2 = true := by
    cases uv <;> simp [pairUseVertical, hex, hs]
  simp only [processSymbol, huv1]
  rw [if_neg]
  · exact processSymbolVisible_outcome_ne ctx arr sym
  · simp

/-- C7: vertical/horizontal pairing in updateLineLabels.  A vertical symbol
whose immediate predecessor in array order is horizontal escapes the hidden
sentinel exactly when that predecessor's iteration reached glyph placement
and its unflipped placement decided useVertical; a vertical symbol that is
exempt (first in the array, or with a non-horizontal predecessor) always
passes the pairing gate. -/
theorem updateLineLabels_vertical_pairing :
    (∀ (ctx : LineLabelCtx) (uv : Bool) (arr arr2 : List Vtx)
        (prevSym sym : PlacedSymbol) (p2 : Option PlacedSymbol),
       prevSym.writingMode = .horizontal → sym.writingMode = .vertical →
       ((processSymbol ctx (processSymbol ctx uv arr prevSym p2).useVertical
           arr2 sym (some prevSym)).outcome ≠ .suppressed ↔
         ((processSymbol ctx uv arr prevSym p2).outcome = .attempted ∧
          (placeUnflippedOf ctx prevSym arr).useVertical = true))) ∧
    (∀ (ctx : LineLabelCtx) (uv : Bool) (arr : List Vtx) (sym : PlacedSymbol)
        (p2 : Option PlacedSymbol),
       sym.writingMode = .vertical → pairExempt p2 = true →
       (processSymbol ctx uv arr sym p2).outcome ≠ .suppressed) := by
  constructor
  · intro ctx uv arr arr2 prevSym sym p2 hp hs
    rw [processSymbol_vertical_gate ctx _ arr2 sym prevSym hs hp]
    exact processSymbol_horizontal_useVertical ctx uv arr prevSym p2 hp
  · intro ctx uv arr sym p2 hs hex
    exact processSymbol_exempt_gate ctx uv arr sym p2 hs hex

/-! ## Concrete instances for witnesses -/

/-- A mercator-like projection for witnesses: tile points map to themselves
at height zero. -/
def projW : ProjectionI :=
  ⟨fun x y _ => ⟨x, y, 0⟩⟩

/-- A concrete transform for the collision-index witnesses. -/
def trW : CITransform :=
  { width := 100, height := 100, cameraToCenterDistance := 1, pitch := 0
    isGlobe := false
    upVector := fun _ _ _ => ⟨0, 0, 0⟩
    upVectorScaleMetersToTile := fun _ => 0
    fogState := none }

/-- A concrete collision box centred on the origin. -/
def boxW : SingleCollisionBox :=
  { x1 := -1, y1 := -1, x2 := 1, y2 := 1, padding := 0
    projectedAnchorX := 0, projectedAnchorY := 0, projectedAnchorZ := 0
    tileAnchorX := 0, tileAnchorY := 0, elevation := 0, tileID := none }

/-- A concrete placement call: overlap disallowed, no group predicate. -/
def argsW : PlaceArgs :=
  { scale := 1, box := boxW, shiftX := 0, shiftY := 0, allowOverlap := false
    textPixelRatio := 1, posMatrix := m4id, predicate := none }

/-- An empty collision index. -/
def ciW : CIState :=
  ⟨[], []⟩

/-- C2 (witness): two identical origin-centred boxes against an empty index;
each is accepted in isolation, their footprints overlap, and committing one
makes the other's placement return the empty box, in either order. -/
theorem placeCollisionBox_first_come_first_served_witness :
    (argsW.allowOverlap = false ∧ argsW.predicate = none ∧
     (placeCollisionBox trW ciW argsW).box ≠ [] ∧
     rectsOverlap (collisionCorners trW argsW) (collisionCorners trW argsW) = true) ∧
    (((placeCollisionBox trW ciW argsW).box ≠ [] ∧
      (placeCollisionBox trW
         (insertCollisionBox ciW (placeCollisionBox trW ciW argsW).box false 1 1 1)
         argsW).box = []) ∧
     ((placeCollisionBox trW ciW argsW).box ≠ [] ∧
      (placeCollisionBox trW
         (insertCollisionBox ciW (placeCollisionBox trW ciW argsW).box false 2 2 2)
         argsW).box = [])) := by
  have hacc : (placeCollisionBox trW ciW argsW).box ≠ [] := by
    norm_num [placeCollisionBox, placeRejected, collisionCorners,
      boxProjectedPoint, elevatedAnchor, projectAndGetPerspectiveRatio,
      xyTransformMat4, transformMat4, isInsideGrid, isOffscreen, hitTest,
      viewportPadding, m4id, trW, boxW, argsW, ciW, min_def]
    simp
  have hov : rectsOverlap (collisionCorners trW argsW)
      (collisionCorners trW argsW) = true := by
    norm_num [rectsOverlap, collisionCorners, boxProjectedPoint,
      elevatedAnchor, projectAndGetPerspectiveRatio, xyTransformMat4,
      transformMat4, viewportPadding, m4id, trW, boxW, argsW, min_def]
  exact ⟨⟨rfl, rfl, hacc, hov⟩,
    placeCollisionBox_first_come_first_served trW ciW argsW argsW 1 1 1 2 2 2
      rfl rfl rfl rfl hacc hacc hov⟩

/-- Concrete line-label context for witnesses: identity matrices, a
256-square viewport, unit camera distance and trivial collaborators. -/
def ctxW5 : LineLabelCtx :=
  { posMatrix := m4id, labelPlaneMatrix := m4id, glCoordMatrix := m4id
    pitchWithMap := false, keepUpright := true, getElevation := none
    tileID := ⟨0, 0, 0⟩
    painterWidth := 256, painterHeight := 256
    trWidth := 256, trHeight := 256
    cameraToCenterDistance := 1
    sizeForFeature := fun _ => 24
    glyphOffsetArray := [0]
    lineVertexArray := [⟨0, 0⟩, ⟨1, 0⟩]
    proj := projW, geom := geomW }

/-- A symbol whose anchor projects far outside the padded viewport. -/
def farW : PlacedSymbol :=
  { tileAnchorX := 1000, tileAnchorY := 0, writingMode := .horizontal
    numGlyphs := 1, glyphStartIndex := 0, lineStartIndex := 0, lineLength := 2
    segment := 0, lineOffsetX := 0, lineOffsetY := 0
    flipState := .unknown, hidden := false }

/-- C5 (witness): the far-away symbol fails the padded viewport test, so its
iteration appends exactly the hidden sentinel for its one glyph, leaves the
symbol unchanged and never reaches placement. -/
theorem updateLineLabels_visibility_gate_witness :
    (isVisible (anchorClipPos ctxW5 farW) (clippingBuffer ctxW5) = false ∨
      (labelPlaneAnchorOf ctxW5 farW).signedDistanceFromCamera ≤ 0) ∧
    ((processSymbol ctxW5 false [] farW none).dynArr =
       hideGlyphs farW.numGlyphs [] ∧
     (processSymbol ctxW5 false [] farW none).symbol = farW ∧
     (processSymbol ctxW5 false [] farW none).outcome ≠ .attempted) := by
  have hv : isVisible (anchorClipPos ctxW5 farW) (clippingBuffer ctxW5) = false := by
    norm_num [isVisible, anchorClipPos, elevatedAnchorOf, clippingBuffer,
      transformMat4, ctxW5, farW, projW, m4id]
  exact ⟨Or.inl hv,
    updateLineLabels_visibility_gate ctxW5 false [] farW none (Or.inl hv)⟩

/-- A hidden horizontal predecessor symbol. -/
def prevW : PlacedSymbol :=
  { tileAnchorX := 0, tileAnchorY := 0, writingMode := .horizontal
    numGlyphs := 1, glyphStartIndex := 0, lineStartIndex := 0, lineLength := 2
    segment := 0, lineOffsetX := 0, lineOffsetY := 0
    flipState := .unknown, hidden := true }

/-- A vertical symbol paired after the horizontal predecessor. -/
def vertW : PlacedSymbol :=
  { tileAnchorX := 0, tileAnchorY := 0, writingMode := .vertical
    numGlyphs := 1, glyphStartIndex := 0, lineStartIndex := 0, lineLength := 2
    segment := 0, lineOffsetX := 0, lineOffsetY := 0
    flipState := .unknown, hidden := false }

/-- C7 (witness): the pairing equivalence evaluated at the hidden horizontal
predecessor and its vertical successor. -/
theorem updateLineLabels_vertical_pairing_witness :
    (prevW.writingMode = .horizontal ∧ vertW.writingMode = .vertical) ∧
    ((processSymbol ctxW5 (processSymbol ctxW5 false [] prevW none).useVertical
        [] vertW (some prevW)).outcome ≠ .suppressed ↔
      ((processSymbol ctxW5 false [] prevW none).outcome = .attempted ∧
       (placeUnflippedOf ctxW5 prevW []).useVertical = true)) :=
  ⟨⟨rfl, rfl⟩,
    updateLineLabels_vertical_pairing.1 ctxW5 false [] [] prevW vertW none
      rfl rfl⟩

/-- A label-plane matrix whose homogeneous w output is always -1, putting
every projected vertex behind the camera plane. -/
def mW6 : M4 :=
  { m4id with m15 := -1 }

/-- A walk context over a three-vertex line with the behind-camera
matrix. -/
def ctxW6 : WalkCtx :=
  { dirNeg := false, absOffsetX := 10, lineStartIndex := 0, lineEndIndex := 3
    lineVertexArray := [⟨0, 0⟩, ⟨1, 0⟩, ⟨2, 0⟩]
    labelPlaneMatrix := mW6, getElevation := none
    returnPathInTileCoords := false, tileAnchorPoint := ⟨0, 0⟩
    proj := projW, tileID := ⟨0, 0, 0⟩, geom := geomW }

/-- The walk state at the anchor, cache empty. -/
def stW6 : WalkState :=
  { currentIndex := 0, current := ⟨0, 0⟩, prev := ⟨0, 0⟩, distanceToPrev := 0
    currentSegmentDistance := 0, pathVertices := [], tilePath := []
    currentVertex := some ⟨0, 0⟩, cache := [] }

/-- The walk state at the last line vertex, about to leave the range. -/
def stW6f : WalkState :=
  { stW6 with currentIndex := 2 }

/-- C6 (witness): with the behind-camera matrix, the freshly projected
vertex has signed distance -1, and the step's current point is exactly the
truncated substitute; and a walk whose next index leaves the vertex range
returns the null result. -/
theorem placeGlyphAlongLine_behind_camera_witness :
    ((cacheLookup stW6.cache 1 = none ∧
      (elevatePointAndProject ctxW6.proj ctxW6.getElevation
         (getVertex ctxW6.lineVertexArray 1) ctxW6.tileID
         ctxW6.labelPlaneMatrix).signedDistanceFromCamera ≤ 0) ∧
     (stepBody ctxW6 stW6 1).current =
       projectTruncatedLineSegment ctxW6.geom
         (previousTilePoint ctxW6 stW6.distanceToPrev 1)
         (getVertex ctxW6.lineVertexArray 1) stW6.current
         (ctxW6.absOffsetX - stW6.distanceToPrev + 1) ctxW6.labelPlaneMatrix
         ctxW6.getElevation ctxW6.proj ctxW6.tileID) ∧
    ((stW6f.distanceToPrev + stW6f.currentSegmentDistance ≤ ctxW6.absOffsetX ∧
      (stW6f.currentIndex + walkDir ctxW6 < ctxW6.lineStartIndex ∨
        ctxW6.lineEndIndex ≤ stW6f.currentIndex + walkDir ctxW6)) ∧
     walk ctxW6 stW6f = .fail stW6f.cache) := by
  have hw : (elevatePointAndProject ctxW6.proj ctxW6.getElevation
      (getVertex ctxW6.lineVertexArray 1) ctxW6.tileID
      ctxW6.labelPlaneMatrix).signedDistanceFromCamera ≤ 0 := by
    norm_num [elevatePointAndProject, project, xyTransformMat4, getVertex,
      ctxW6, projW, mW6, m4id]
  have hcond : stW6f.distanceToPrev + stW6f.currentSegmentDistance ≤
      ctxW6.absOffsetX := by
    norm_num [stW6f, stW6, ctxW6]
  have hbound : stW6f.currentIndex + walkDir ctxW6 < ctxW6.lineStartIndex ∨
      ctxW6.lineEndIndex ≤ stW6f.currentIndex + walkDir ctxW6 := by
    right
    norm_num [stW6f, stW6, ctxW6, walkDir]
  exact ⟨⟨⟨rfl, hw⟩,
      placeGlyphAlongLine_behind_camera.1 ctxW6 stW6 1 rfl hw⟩,
    ⟨⟨hcond, hbound⟩,
      placeGlyphAlongLine_behind_camera.2.1 ctxW6 stW6f hcond hbound⟩⟩
